import Mathlib

/-!
Shallow embedding of `src/server.js` (a Slack interactive-messages app that
also lists Trådfri devices), together with proofs about its handlers.

JavaScript conventions modelled here:
- a possibly-`undefined` field is an `Option`;
- reading a property of `undefined` (e.g. `undefined.trim()`) throws a
  `TypeError`, modelled as `Except.error JsError.typeError`;
- template interpolation of `undefined` renders the string `"undefined"`.
-/

/-- The only JavaScript runtime error the embedded code can raise. -/
inductive JsError where
  | typeError : JsError
deriving DecidableEq, Repr

/-- Interpolation of a possibly-undefined string, as in a JS template literal. -/
def jsShowOptStr : Option String → String
  | none => "undefined"
  | some s => s

/-- Interpolation of a possibly-undefined boolean. -/
def jsShowOptBool : Option Bool → String
  | none => "undefined"
  | some true => "true"
  | some false => "false"

/-- Interpolation of a possibly-undefined number. -/
def jsShowOptNat : Option Nat → String
  | none => "undefined"
  | some n => toString n

/-- One entry of a light device's `lightList` (the first light channel). -/
structure LightInfo where
  onOff : Option Bool
  spectrum : Option String
  dimmer : Option Nat
  color : Option String
  colorTemperature : Option Nat
deriving DecidableEq, Repr

/-- One entry of a plug device's `plugList`. -/
structure PlugInfo where
  onOff : Option Bool
deriving DecidableEq, Repr

/-- The `deviceInfo` sub-object carrying battery telemetry. -/
structure BatteryInfo where
  battery : Option Nat
deriving DecidableEq, Repr

/-- A raw Trådfri device record as `printDeviceInfo` consumes it.
An absent or empty channel list is modelled as `[]` (both make the
JS `list[0].field` access throw). -/
structure Device where
  type : Nat
  instanceId : Nat
  name : String
  deviceInfo : Option BatteryInfo
  lightList : List LightInfo
  plugList : List PlugInfo
deriving DecidableEq, Repr

/-- The object returned by `printDeviceInfo` in the light case (the code's
`info`); every field is copied from the device or its first light channel. -/
structure Info where
  instanceId : Nat
  name : String
  onOff : Option Bool
  spectrum : Option String
  dimmer : Option Nat
  color : Option String
  colorTemperature : Option Nat
deriving DecidableEq, Repr

/-- `printDeviceInfo(device)` from `src/server.js`: a switch on `device.type`.
Types 0 (remote) and 4 (sensor) log `device.deviceInfo.battery` and fall
through (return `undefined`); type 2 (light) builds and returns `info` from
`device.lightList[0]`; type 3 (plug) logs `device.plugList[0].onOff` and
returns `undefined`; any other type logs and returns `undefined`.
The field accesses that throw on `undefined` are the `.battery` read when
`deviceInfo` is absent and the `.onOff` (resp. `info` construction) when the
channel list is empty. -/
def printDeviceInfo (device : Device) : Except JsError (Option Info) :=
  if device.type = 0 ∨ device.type = 4 then
    match device.deviceInfo with
    | none => .error .typeError
    | some _ => .ok none
  else if device.type = 2 then
    match device.lightList with
    | [] => .error .typeError
    | li :: _ =>
        .ok (some { instanceId := device.instanceId, name := device.name,
                    onOff := li.onOff, spectrum := li.spectrum,
                    dimmer := li.dimmer, color := li.color,
                    colorTemperature := li.colorTemperature })
  else if device.type = 3 then
    match device.plugList with
    | [] => .error .typeError
    | _ :: _ => .ok none
  else .ok none

/-- A Slack Block Kit block as `getAndPrintDevices` builds them. -/
inductive Block where
  | welcomeSection : Block
  | nameSection (text : String) : Block
  | fieldsSection (fields : List String) : Block
  | textInput : Block
  | divider : Block
deriving DecidableEq, Repr

/-- The four blocks `getAndPrintDevices` pushes for one classified device:
the name section, the section with five mrkdwn fields, the note input, and
the divider. -/
def deviceBlocks (info : Info) : List Block :=
  [ Block.nameSection info.name,
    Block.fieldsSection
      [ "*Instance ID*\n " ++ toString info.instanceId,
        "*On/Off*\n " ++ jsShowOptBool info.onOff,
        "*Spectrum*\n " ++ jsShowOptStr info.spectrum,
        "*Dimmer*\n " ++ jsShowOptNat info.dimmer,
        "*Color*\n #" ++ jsShowOptStr info.color ],
    Block.textInput,
    Block.divider ]

/-- The device loop of `getAndPrintDevices`: for each device in order, call
`printDeviceInfo`; a thrown error rejects the whole listing, an `undefined`
info is skipped, and a returned info contributes its four blocks. -/
def buildBlocks : List Device → Except JsError (List Block)
  | [] => .ok []
  | d :: ds =>
    match printDeviceInfo d with
    | .error e => .error e
    | .ok none => buildBlocks ds
    | .ok (some i) =>
      match buildBlocks ds with
      | .error e => .error e
      | .ok rest => .ok (deviceBlocks i ++ rest)

/-- `getAndPrintDevices` from `src/server.js`, abstracted over the gateway's
device list: the returned modal's `blocks` start with the fixed welcome
section followed by the per-device blocks. -/
def getAndPrintDevices (devices : List Device) : Except JsError (List Block) :=
  match buildBlocks devices with
  | .error e => .error e
  | .ok bs => .ok (Block.welcomeSection :: bs)

/-- The infos `printDeviceInfo` yields for a device list, in order, skipping
devices it does not classify; derived from `printDeviceInfo` to state which
devices contribute blocks. -/
def collectInfos : List Device → Except JsError (List Info)
  | [] => .ok []
  | d :: ds =>
    match printDeviceInfo d with
    | .error e => .error e
    | .ok none => collectInfos ds
    | .ok (some i) =>
      match collectInfos ds with
      | .error e => .error e
      | .ok rest => .ok (i :: rest)

/-- A user reference from a Slack payload (`payload.user`). -/
structure UserRef where
  id : String
  name : String
deriving DecidableEq, Repr

/-- The persisted user record; `models.js` is not part of the sources, its
fields are those the handlers read (`agreedToPolicy`, `kudosCount`). -/
structure UserRec where
  agreedToPolicy : Bool
  kudosCount : Nat
deriving DecidableEq, Repr

/-- The users collection: slack id to record. -/
abbrev UsersStore := List (String × UserRec)

/-- Modelled from the spec: the persistence contract
`findUserById(id) -> User` (`models.js` is absent from the sources). A key
lookup in the store; an absent (`undefined`) or unknown id is a lookup
failure, surfaced to the handlers as a rejected promise. -/
def findBySlackId (store : UsersStore) : Option String → Option UserRec
  | none => none
  | some i => (List.find? (fun p => p.1 == i) store).map Prod.snd

/-- Modelled from the spec: `user.setPolicyAgreement(bool) -> User` — set the
policy-agreement flag and resolve with the saved user. -/
def setPolicyAgreementAndSave (u : UserRec) (b : Bool) : UserRec :=
  { u with agreedToPolicy := b }

/-- Modelled from the spec: `user.incrementKudos(comment) -> User{kudosCount}`
— increment the kudos counter and resolve with the saved user. -/
def incrementKudosAndSave (u : UserRec) : UserRec :=
  { u with kudosCount := u.kudosCount + 1 }

/-- A reply object passed to `respond`: its `text` and the optional
`replace_original` flag. -/
structure Reply where
  text : String
  replace_original : Option Bool
deriving DecidableEq, Repr

/-- An interactive-message action entry (`payload.actions[0]`). -/
structure TosAction where
  name : String
  value : String
deriving DecidableEq, Repr

/-- A message attachment; `actions` is `none` once deleted. -/
structure Attachment where
  text : String
  actions : Option (List TosAction)
deriving DecidableEq, Repr

/-- A Slack message with attachments (`payload.original_message`). -/
structure Message where
  text : String
  attachments : List Attachment
deriving DecidableEq, Repr

/-- The payload of an `accept_tos` button press. -/
structure TosPayload where
  user : UserRef
  original_message : Message
  actions : List TosAction
deriving DecidableEq, Repr

/-- The generic error reply of the `accept_tos` handler. -/
def genericTosError : Reply :=
  { text := "An error occurred while recording your agreement choice.",
    replace_original := none }

/-- The sequence of `respond` calls the `accept_tos` handler performs, in
order: the unconditional synchronous `respond` with the generic error text
(lines 87-89), then the one deferred `respond` from the promise chain —
the confirmation text when the user is found (agreement set from whether
`payload.actions[0].value === 'accept'`), or the generic error again when
the lookup rejects or `payload.actions[0]` is absent. -/
def acceptTosResponds (store : UsersStore) (payload : TosPayload) : List Reply :=
  let deferred :=
    match findBySlackId store (some payload.user.id), payload.actions with
    | some u, a :: _ =>
        let u2 := setPolicyAgreementAndSave u (a.value == "accept")
        if u2.agreedToPolicy then
          { text := "Thank you for agreeing to the terms of service",
            replace_original := none }
        else
          { text := "You have denied the terms of service. You will no longer have access to this app.",
            replace_original := none }
    | _, _ => genericTosError
  [genericTosError, deferred]

/-- `delete reply.attachments[0].actions`: removes the interactive elements
from the first attachment; throws when `attachments[0]` is `undefined`. -/
def stripFirstAttachmentActions (m : Message) : Except JsError Message :=
  match m.attachments with
  | [] => .error .typeError
  | att :: rest =>
      .ok { text := m.text,
            attachments := { text := att.text, actions := none } :: rest }

/-- The synchronous tail of the `accept_tos` handler (lines 93-95):
`reply` aliases `payload.original_message`, so deleting the first
attachment's actions mutates the event; the handler returns that same
mutated message. The result pairs the returned reply with the event's
post-handler state. -/
def acceptTosSyncReturn (payload : TosPayload) :
    Except JsError (Message × TosPayload) :=
  match stripFirstAttachmentActions payload.original_message with
  | .error e => .error e
  | .ok m2 => .ok (m2, { payload with original_message := m2 })

/-- The payload of a `pick_sf_neighborhood` menu selection, restricted to
the fields its synchronous tail reads. -/
structure MenuPayload where
  user : UserRef
  original_message : Message
deriving DecidableEq, Repr

/-- The synchronous tail of the `pick_sf_neighborhood` handler
(lines 151-153), textually identical to the `accept_tos` one: it mutates
the event's `original_message` in place and returns it. -/
def pickNeighborhoodSyncReturn (payload : MenuPayload) :
    Except JsError (Message × MenuPayload) :=
  match stripFirstAttachmentActions payload.original_message with
  | .error e => .error e
  | .ok m2 => .ok (m2, { payload with original_message := m2 })

/-- A dialog submission's fields. The kudos dialog defined in the source has
exactly the elements `user` and `comment`; `id` is the extra property the
handler reads (`payload.submission.id`), `undefined` on a real submission. -/
structure Submission where
  user : Option String
  comment : Option String
  id : Option String
deriving DecidableEq, Repr

/-- The payload of a dialog submission. -/
structure DialogPayload where
  user : UserRef
  submission : Submission
deriving DecidableEq, Repr

/-- One field-level validation error (`{name, error}`). -/
structure KudosError where
  name : String
  error : String
deriving DecidableEq, Repr

/-- A whitespace character as JS `String.prototype.trim` treats the common
ones: space, tab, line feed, carriage return, vertical tab, form feed. -/
def isJsSpace (c : Char) : Bool :=
  c = ' ' || c = '\t' || c = '\n' || c = '\r' || c = '\x0b' || c = '\x0c'

/-- JS `s.trim()`: drop leading and trailing whitespace. -/
def jsTrim (s : String) : String :=
  String.mk (((s.toList.dropWhile isJsSpace).reverse.dropWhile isJsSpace).reverse)

/-- `validateKudosSubmission(submission)` from `src/server.js`: pushes a
`comment` error when `submission.comment.trim()` is empty (the empty string
is falsy), and returns the `{errors}` object when any were collected
(otherwise `undefined`). Reading `.trim` of an absent comment throws a
`TypeError`. -/
def validateKudosSubmission (submission : Submission) :
    Except JsError (Option (List KudosError)) :=
  match submission.comment with
  | none => .error .typeError
  | some c =>
      let errors :=
        if (jsTrim c = "") then
          [{ name := "comment", error := "The comment cannot be empty" }]
        else []
      if errors.length > 0 then .ok (some errors) else .ok none

/-- The dialog-submission handler: validate first; on errors return them
synchronously with no pushes. Otherwise (inside the deferred `setTimeout`)
push the acknowledgement naming the submitter and `submission.user`, then
look the user up by `submission.id`, increment kudos and push the total —
or push the generic error reply when that chain rejects. The result pairs
the synchronous return (the errors object or `undefined`) with the ordered
list of `respond` calls. -/
def handleDialogSubmission (store : UsersStore) (payload : DialogPayload) :
    Except JsError (Option (List KudosError) × List Reply) :=
  match validateKudosSubmission payload.submission with
  | .error e => .error e
  | .ok (some errors) => .ok (some errors, [])
  | .ok none =>
      let partialMessage :=
        "<@" ++ payload.user.id ++ "> just gave kudos to <@" ++
          jsShowOptStr payload.submission.user ++ ">."
      let ack : Reply := { text := partialMessage, replace_original := none }
      match findBySlackId store payload.submission.id with
      | none =>
          .ok (none,
            [ack, { text := "An error occurred while incrementing kudos.",
                    replace_original := none }])
      | some u =>
          let u2 := incrementKudosAndSave u
          .ok (none,
            [ack, { text := partialMessage ++ " That makes a total of " ++
                      toString u2.kudosCount ++ "! :balloon:",
                    replace_original := some true }])

/-- The response a request to `/slack/commands` receives. -/
inductive SlashResponse where
  | jsonButtons : SlashResponse
  | jsonMenu : SlashResponse
  | jsonDevices (blocks : List Block) : SlashResponse
  | sendEmpty : SlashResponse
  | sendText (s : String) : SlashResponse
  | sendStatus (code : Nat) : SlashResponse
deriving DecidableEq, Repr

/-- `text.split(' ')[0]`: the text up to the first space character (the
first element of the split is everything before the first separator; for
the empty text it is the empty string). -/
def firstWord (text : String) : String :=
  String.mk (text.toList.takeWhile (fun c => c != ' '))

/-- The usage reply for an unrecognized keyword. -/
def usageText : String :=
  "Use this command followed by `button`, `menu`, or `dialog`."

/-- The keyword dispatch inside `slackSlashCommand`: `button` and `menu`
return the canned payloads, `devices` returns the listing built by
`getAndPrintDevices`, `dialog` sends an empty body (and opens a view out of
band), anything else sends the usage string. -/
def dispatchSub (t : String) (devices : List Device) :
    Except JsError SlashResponse :=
  if t == "button" then .ok .jsonButtons
  else if t == "menu" then .ok .jsonMenu
  else if t == "devices" then
    match getAndPrintDevices devices with
    | .error e => .error e
    | .ok bs => .ok (.jsonDevices bs)
  else if t == "dialog" then .ok .sendEmpty
  else .ok (.sendText usageText)

/-- `slackSlashCommand` from `src/server.js`, abstracted over the outcome of
signature verification, the parsed `command` and `text` fields, and the
gateway's device list: a verified request for `/trådbot` dispatches on the
first word of the text; everything else gets `res.sendStatus(404)`. -/
def slackSlashCommand (verified : Bool) (command text : String)
    (devices : List Device) : Except JsError SlashResponse :=
  if verified && (command == "/trådbot") then
    dispatchSub (firstWord text) devices
  else .ok (.sendStatus 404)

/-- A sample remote (type 0) device with battery telemetry. -/
def sampleRemote : Device :=
  { type := 0, instanceId := 65536, name := "TRADFRI remote control",
    deviceInfo := some { battery := some 87 }, lightList := [], plugList := [] }

/-- A sample plug (type 3) device whose first plug channel is on. -/
def samplePlug : Device :=
  { type := 3, instanceId := 65539, name := "TRADFRI control outlet",
    deviceInfo := some { battery := none }, lightList := [],
    plugList := [{ onOff := some true }] }

/-- A sample light (type 2) device with a fully populated first channel. -/
def sampleLight : Device :=
  { type := 2, instanceId := 65537, name := "TRADFRI bulb E27",
    deviceInfo := some { battery := none },
    lightList := [{ onOff := some true, spectrum := some "white",
                    dimmer := some 254, color := some "f5faf6",
                    colorTemperature := some 370 }],
    plugList := [] }

/-- A sample device with the unrecognized type code 6. -/
def sampleUnknown : Device :=
  { type := 6, instanceId := 65540, name := "SYMFONISK speaker",
    deviceInfo := some { battery := none }, lightList := [], plugList := [] }

/- Helper lemmas (shared, not tied to a single claim). -/

theorem printDeviceInfo_unrecognized (d : Device)
    (h0 : d.type ≠ 0) (h2 : d.type ≠ 2) (h3 : d.type ≠ 3) (h4 : d.type ≠ 4) :
    printDeviceInfo d = .ok none := by
  unfold printDeviceInfo
  simp [h0, h2, h3, h4]

theorem buildBlocks_skip (d : Device) (hd : printDeviceInfo d = .ok none) :
    ∀ ds1 ds2 : List Device,
      buildBlocks (ds1 ++ d :: ds2) = buildBlocks (ds1 ++ ds2) := by
  intro ds1 ds2
  induction ds1 with
  | nil => simp [buildBlocks, hd]
  | cons a tl ih => simp [buildBlocks, ih]

theorem buildBlocks_of_collect :
    ∀ (ds : List Device) (infos : List Info),
      collectInfos ds = .ok infos →
      buildBlocks ds = .ok (infos.map deviceBlocks).flatten := by
  intro ds
  induction ds with
  | nil =>
      intro infos h
      simp [collectInfos] at h
      subst h
      simp [buildBlocks]
  | cons d tl ih =>
      intro infos h
      unfold collectInfos at h
      unfold buildBlocks
      cases hp : printDeviceInfo d with
      | error e => rw [hp] at h; simp at h
      | ok oi =>
          rw [hp] at h
          cases oi with
          | none => exact ih infos h
          | some i =>
              cases hc : collectInfos tl with
              | error e => rw [hc] at h; simp at h
              | ok rest =>
                  rw [hc] at h
                  simp at h
                  subst h
                  rw [ih rest hc]
                  simp

theorem deviceBlocks_flatten_length :
    ∀ infos : List Info, ((infos.map deviceBlocks).flatten).length = 4 * infos.length := by
  intro infos
  induction infos with
  | nil => simp
  | cons i tl ih =>
      simp [deviceBlocks, ih]
      ring

/-- Claim C2 (counterexample): the claim says remote/sensor records normalize
to a snapshot carrying the battery percentage and plug records to a snapshot
carrying the on/off state; on the code, `printDeviceInfo` returns `undefined`
(here `none`) for a concrete remote with battery telemetry and for a concrete
plug with an on first channel — no snapshot is produced. -/
theorem remote_and_plug_yield_no_snapshot :
    printDeviceInfo sampleRemote = .ok none ∧
    printDeviceInfo samplePlug = .ok none := by
  exact ⟨rfl, rfl⟩

/-- Claim C2 (amended): for every remote or sensor record with its
`deviceInfo` present, and for every plug record with a nonempty `plugList`,
`printDeviceInfo` only logs the telemetry and returns `undefined` (`none`);
only light records yield a snapshot. -/
theorem remote_sensor_plug_only_logged :
    (∀ d : Device, (d.type = 0 ∨ d.type = 4) → d.deviceInfo ≠ none →
       printDeviceInfo d = .ok none) ∧
    (∀ d : Device, d.type = 3 → d.plugList ≠ [] →
       printDeviceInfo d = .ok none) := by
  constructor
  · intro d h04 hdi
    unfold printDeviceInfo
    rw [if_pos h04]
    cases hd : d.deviceInfo with
    | none => exact absurd hd hdi
    | some b => rfl
  · intro d h3 hp
    have h04 : ¬(d.type = 0 ∨ d.type = 4) := by omega
    have h2 : ¬(d.type = 2) := by omega
    unfold printDeviceInfo
    rw [if_neg h04, if_neg h2, if_pos h3]
    cases hq : d.plugList with
    | nil => exact absurd hq hp
    | cons p tl => rfl

/-- Claim C2 (witness for the amended theorem): the amended statement applied
to the concrete sample remote and sample plug. -/
theorem remote_sensor_plug_only_logged_witness :
    printDeviceInfo sampleRemote = Except.ok none ∧
    printDeviceInfo samplePlug = Except.ok none :=
  ⟨remote_sensor_plug_only_logged.1 sampleRemote (by decide) (by decide),
   remote_sensor_plug_only_logged.2 samplePlug (by decide) (by decide)⟩

/-- Claim C4: for every raw device record of type 2 (light) with a first
light channel, `printDeviceInfo` returns the snapshot whose on/off, spectrum,
dimmer and color fields are copied verbatim from that first channel (so each
is set exactly when the channel provides it); and a snapshot is produced only
for lights, grounding `kind = light`. -/
theorem light_normalize_fields :
    (∀ (d : Device) (li : LightInfo) (rest : List LightInfo),
        d.type = 2 → d.lightList = li :: rest →
        printDeviceInfo d =
          .ok (some { instanceId := d.instanceId, name := d.name,
                      onOff := li.onOff, spectrum := li.spectrum,
                      dimmer := li.dimmer, color := li.color,
                      colorTemperature := li.colorTemperature })) ∧
    (∀ (d : Device) (i : Info),
        printDeviceInfo d = .ok (some i) → d.type = 2) := by
  constructor
  · intro d li rest ht hl
    unfold printDeviceInfo
    simp [ht, hl]
  · intro d i h
    unfold printDeviceInfo at h
    by_cases h04 : d.type = 0 ∨ d.type = 4
    · rw [if_pos h04] at h
      cases hd : d.deviceInfo <;> rw [hd] at h <;> simp at h
    · rw [if_neg h04] at h
      by_cases h2 : d.type = 2
      · exact h2
      · rw [if_neg h2] at h
        by_cases h3 : d.type = 3
        · rw [if_pos h3] at h
          cases hp : d.plugList <;> rw [hp] at h <;> simp at h
        · rw [if_neg h3] at h
          simp at h

/-- Claim C4 (witness): the theorem applied to the concrete sample light. -/
theorem light_normalize_fields_witness :
    printDeviceInfo sampleLight =
      Except.ok (some { instanceId := 65537, name := "TRADFRI bulb E27",
                        onOff := some true, spectrum := some "white",
                        dimmer := some 254, color := some "f5faf6",
                        colorTemperature := some 370 }) :=
  light_normalize_fields.1 sampleLight
    { onOff := some true, spectrum := some "white", dimmer := some 254,
      color := some "f5faf6", colorTemperature := some 370 } [] rfl rfl

/-- Claim C5: for every raw device record with an unrecognized type
discriminator, `printDeviceInfo` returns `undefined` (`none`), and
`getAndPrintDevices` produces exactly the same block list whether or not
that device appears anywhere in the gateway's list: no block for it, all
surrounding devices rendered as before, and no failure of the listing. -/
theorem unrecognized_device_skipped (d : Device)
    (h0 : d.type ≠ 0) (h2 : d.type ≠ 2) (h3 : d.type ≠ 3) (h4 : d.type ≠ 4) :
    printDeviceInfo d = .ok none ∧
    ∀ ds1 ds2 : List Device,
      getAndPrintDevices (ds1 ++ d :: ds2) = getAndPrintDevices (ds1 ++ ds2) := by
  have hd := printDeviceInfo_unrecognized d h0 h2 h3 h4
  refine ⟨hd, ?_⟩
  intro ds1 ds2
  unfold getAndPrintDevices
  rw [buildBlocks_skip d hd ds1 ds2]

/-- Claim C5 (witness): the unknown type-6 device is skipped from a listing
that still renders the sample light. -/
theorem unrecognized_device_skipped_witness :
    printDeviceInfo sampleUnknown = .ok none ∧
    getAndPrintDevices [sampleLight, sampleUnknown] =
      getAndPrintDevices [sampleLight] := by
  have h := unrecognized_device_skipped sampleUnknown
    (by decide) (by decide) (by decide) (by decide)
  exact ⟨h.1, h.2 [sampleLight] []⟩

/-- Claim C7: when the per-device classification of a device list succeeds
with the infos `infos` (in input order, devices mapped to `none` dropped),
the rendered listing is exactly the welcome section followed by, for each
classified device in order, its one group of blocks — the name section, the
single section-with-fields, the note input, and the single divider — and
hence contributes zero blocks for `none`-normalized devices; the total block
count is one plus four per classified device. -/
theorem device_list_block_groups (ds : List Device) (infos : List Info)
    (h : collectInfos ds = .ok infos) :
    getAndPrintDevices ds =
      .ok (Block.welcomeSection :: (infos.map deviceBlocks).flatten) ∧
    (Block.welcomeSection :: (infos.map deviceBlocks).flatten).length =
      1 + 4 * infos.length := by
  constructor
  · unfold getAndPrintDevices
    rw [buildBlocks_of_collect ds infos h]
  · simp [deviceBlocks_flatten_length infos]
    ring

/-- Claim C7 (witness): the concrete listing of a light followed by an
unknown-type device renders the welcome section plus exactly the light's
block group. -/
theorem device_list_block_groups_witness :
    getAndPrintDevices [sampleLight, sampleUnknown] =
      .ok (Block.welcomeSection ::
        (([{ instanceId := 65537, name := "TRADFRI bulb E27",
             onOff := some true, spectrum := some "white",
             dimmer := some 254, color := some "f5faf6",
             colorTemperature := some 370 }] : List Info).map
           deviceBlocks).flatten) ∧
    (Block.welcomeSection ::
        (([{ instanceId := 65537, name := "TRADFRI bulb E27",
             onOff := some true, spectrum := some "white",
             dimmer := some 254, color := some "f5faf6",
             colorTemperature := some 370 }] : List Info).map
           deviceBlocks).flatten).length =
      1 + 4 * ([{ instanceId := 65537, name := "TRADFRI bulb E27",
                  onOff := some true, spectrum := some "white",
                  dimmer := some 254, color := some "f5faf6",
                  colorTemperature := some 370 }] : List Info).length :=
  device_list_block_groups [sampleLight, sampleUnknown] _ rfl

/-- The users store for the kudos scenario: the target user `U2` has 4 kudos. -/
def kudosStore : UsersStore := [("U2", { agreedToPolicy := true, kudosCount := 4 })]

/-- A genuine kudos dialog submission by `U1` for `U2` with comment
`great work`; the dialog defines only the `user` and `comment` elements, so
`submission.id` is `undefined`. -/
def kudosDialogPayload : DialogPayload :=
  { user := { id := "U1", name := "alice" },
    submission := { user := some "U2", comment := some "great work", id := none } }

/-- Claim C3 (failing-input evaluation): for the kudos submission with
comment `great work` and target user `U2` whose prior count is 4, the
handler does push the acknowledgement naming both users first, but its
second push is the generic increment error, not a total of 5: the lookup
key is `payload.submission.id`, which the kudos dialog never sets, so the
target user `U2` is never found and no counter is incremented. -/
theorem kudos_wrong_lookup_key_eval :
    handleDialogSubmission kudosStore kudosDialogPayload =
      .ok (none,
        [{ text := "<@U1> just gave kudos to <@U2>.", replace_original := none },
         { text := "An error occurred while incrementing kudos.",
           replace_original := none }]) := by
  rfl

/-- Claim C6: for every kudos dialog submission whose comment is present but
empty or whitespace-only, the handler synchronously returns the validation
reply with exactly one error keyed `comment`, performs no `respond` pushes,
and no deferred step occurs. -/
theorem empty_comment_validation (store : UsersStore) (payload : DialogPayload)
    (c : String) (hc : payload.submission.comment = some c)
    (ht : jsTrim c = "") :
    handleDialogSubmission store payload =
      .ok (some [{ name := "comment", error := "The comment cannot be empty" }],
           []) := by
  unfold handleDialogSubmission validateKudosSubmission
  rw [hc]
  simp [ht]

/-- A kudos dialog submission whose comment is three spaces. -/
def whitespacePayload : DialogPayload :=
  { user := { id := "U1", name := "alice" },
    submission := { user := some "U2", comment := some "   ", id := none } }

/-- Claim C6 (witness): the theorem applied to the concrete whitespace-only
submission against the concrete store. -/
theorem empty_comment_validation_witness :
    handleDialogSubmission kudosStore whitespacePayload =
      .ok (some [{ name := "comment", error := "The comment cannot be empty" }],
           []) :=
  empty_comment_validation kudosStore whitespacePayload "   " rfl (by decide)

/-- Claim C10: `validateKudosSubmission` is total only when the `comment`
field is a string: an absent comment makes `submission.comment.trim()` throw
a `TypeError`, while every string comment yields the field-level result
(the single `comment` error for whitespace-only comments, no errors object
otherwise). -/
theorem validate_throws_on_missing_comment :
    (∀ u i : Option String,
        validateKudosSubmission { user := u, comment := none, id := i } =
          .error .typeError) ∧
    (∀ (u i : Option String) (s : String),
        validateKudosSubmission { user := u, comment := some s, id := i } =
          .ok (if jsTrim s = "" then
                 some [{ name := "comment",
                         error := "The comment cannot be empty" }]
               else none)) := by
  constructor
  · intro u i
    rfl
  · intro u i s
    unfold validateKudosSubmission
    by_cases h : jsTrim s = "" <;> simp [h]

/-- The users store for the policy scenario: `U1` has not yet agreed. -/
def tosStore : UsersStore := [("U1", { agreedToPolicy := false, kudosCount := 0 })]

/-- A concrete `accept_tos` button press: stored user `U1` presses the
accept button on the terms-of-service message. -/
def tosPayloadAccept : TosPayload :=
  { user := { id := "U1", name := "alice" },
    original_message :=
      { text := "The terms of service for this app are _not really_ here",
        attachments :=
          [{ text := "Do you accept the terms of service?",
             actions := some [{ name := "accept_tos", value := "accept" }] }] },
    actions := [{ name := "accept_tos", value := "accept" }] }

/-- Claim C1 (failing-input evaluation): on an ordinary successful
`accept_tos` press, the handler performs two `respond` calls, and the first
is the generic error reply pushed unconditionally before the promise chain
settles — the deferred success reply then duplicates it. The claim (and the
spec, which flags this very line as a defect) requires at most one respond
carrying the final outcome and no unconditional generic error. -/
theorem accept_tos_duplicate_respond :
    acceptTosResponds tosStore tosPayloadAccept =
      [genericTosError,
       { text := "Thank you for agreeing to the terms of service",
         replace_original := none }] ∧
    (acceptTosResponds tosStore tosPayloadAccept).length = 2 := by
  exact ⟨rfl, rfl⟩

/-- The terms-of-service message after `delete reply.attachments[0].actions`. -/
def strippedTosMessage : Message :=
  { text := "The terms of service for this app are _not really_ here",
    attachments :=
      [{ text := "Do you accept the terms of service?", actions := none }] }

/-- Claim C8 (counterexample): handling the concrete `accept_tos` press
leaves the event mutated — its `original_message` afterwards differs from
the received one (the first attachment's actions were deleted in place),
refuting the claim that the event object is immutable and the stripped
reply a copy. -/
theorem event_mutation_counterexample :
    acceptTosSyncReturn tosPayloadAccept =
      .ok (strippedTosMessage,
           { tosPayloadAccept with original_message := strippedTosMessage }) ∧
    strippedTosMessage ≠ tosPayloadAccept.original_message := by
  constructor
  · rfl
  · decide

/-- Claim C8 (amended): the `accept_tos` and `pick_sf_neighborhood` handlers
strip the interactive elements by mutating the received event in place:
whenever their synchronous tail succeeds, the returned immediate reply is
the event's own post-handler `original_message` (the same object, not a
copy), namely the received message with the first attachment's actions
deleted. -/
theorem handlers_strip_by_mutation :
    (∀ (p : TosPayload) (m : Message) (p2 : TosPayload),
        acceptTosSyncReturn p = .ok (m, p2) →
        m = p2.original_message ∧
        stripFirstAttachmentActions p.original_message = .ok m) ∧
    (∀ (q : MenuPayload) (m : Message) (q2 : MenuPayload),
        pickNeighborhoodSyncReturn q = .ok (m, q2) →
        m = q2.original_message ∧
        stripFirstAttachmentActions q.original_message = .ok m) := by
  constructor
  · intro p m p2 h
    unfold acceptTosSyncReturn at h
    cases hs : stripFirstAttachmentActions p.original_message with
    | error e => rw [hs] at h; simp at h
    | ok m2 =>
        rw [hs] at h
        simp at h
        obtain ⟨h1, h2⟩ := h
        subst h1
        subst h2
        exact ⟨rfl, rfl⟩
  · intro q m q2 h
    unfold pickNeighborhoodSyncReturn at h
    cases hs : stripFirstAttachmentActions q.original_message with
    | error e => rw [hs] at h; simp at h
    | ok m2 =>
        rw [hs] at h
        simp at h
        obtain ⟨h1, h2⟩ := h
        subst h1
        subst h2
        exact ⟨rfl, rfl⟩

/-- Claim C8 (witness for the amended theorem): the amended statement applied
to the concrete `accept_tos` press. -/
theorem handlers_strip_by_mutation_witness :
    strippedTosMessage =
      ({ tosPayloadAccept with
         original_message := strippedTosMessage } : TosPayload).original_message ∧
    stripFirstAttachmentActions tosPayloadAccept.original_message =
      .ok strippedTosMessage :=
  handlers_strip_by_mutation.1 tosPayloadAccept strippedTosMessage
    { tosPayloadAccept with original_message := strippedTosMessage } rfl

/-- Claim C9: for every request to `/slack/commands`, a verified `/trådbot`
request is dispatched purely on the first word of the free text (the
response equals the keyword dispatch applied to that word); a verified
`/trådbot` request whose first word is none of the recognized keywords gets
the static usage string; and a request failing signature verification or
carrying a different command token gets status 404 with no body sent by the
handler. -/
theorem slash_command_contract (verified : Bool) (command text : String)
    (devices : List Device) :
    (¬(verified = true ∧ command = "/trådbot") →
       slackSlashCommand verified command text devices = .ok (.sendStatus 404)) ∧
    (verified = true → command = "/trådbot" →
       slackSlashCommand verified command text devices =
         dispatchSub (firstWord text) devices) ∧
    (verified = true → command = "/trådbot" →
       firstWord text ≠ "button" → firstWord text ≠ "menu" →
       firstWord text ≠ "devices" → firstWord text ≠ "dialog" →
       slackSlashCommand verified command text devices =
         .ok (.sendText usageText)) := by
  refine ⟨?_, ?_, ?_⟩
  · intro h
    unfold slackSlashCommand
    rw [if_neg]
    simpa using h
  · intro hv hc
    subst hv
    subst hc
    unfold slackSlashCommand
    simp
  · intro hv hc h1 h2 h3 h4
    subst hv
    subst hc
    unfold slackSlashCommand dispatchSub
    simp [h1, h2, h3, h4]

/-- Claim C9 (witness): an unverified request gets 404, and a verified
`/trådbot` request with the unrecognized keyword `frobnicate` gets the
usage string. -/
theorem slash_command_contract_witness :
    slackSlashCommand false "/trådbot" "button" [] = .ok (.sendStatus 404) ∧
    slackSlashCommand true "/trådbot" "frobnicate the lights" [] =
      .ok (.sendText usageText) := by
  constructor
  · exact (slash_command_contract false "/trådbot" "button" []).1 (by simp)
  · exact (slash_command_contract true "/trådbot" "frobnicate the lights" []).2.2
      rfl rfl (by decide) (by decide) (by decide) (by decide)
